import Mathlib

/-!
Verification development for the todo-fs repository: a FUSE filesystem whose
directory tree is synthesized from a relational metadata store.

The definitions below are a shallow embedding of `src/db.rs`,
`src/fuse/client.rs` and `src/fuse/mod.rs`:

* SQL tables become Lean lists of row structures; SQL queries become list
  traversals mirroring the generated statements.
* The host filesystem is a `Host` record: sets of existing directory, file
  and symlink paths (paths are lists of components), plus the tool-binary
  directory.  Rust `Path`s delivered by FUSE are absolute and are embedded
  as their lists of non-root components (so the Rust `path.iter().count()`
  equals `length + 1`, the leading `/` being one component).
* Machine integers (`i64` row ids, `u64` handles) are embedded as `Int`/`Nat`;
  none of the embedded code paths perform wrapping arithmetic.
* Fallible Rust functions returning `Result` become `Except`; `Option`
  stays `Option`.  A Rust panic reachable from the embedded code is a
  distinguished constructor (`ReadOutcome.panicked`) or an `Option.none`,
  never silently dropped.
-/

namespace TodoFs

/-- `RelationshipSide` from `src/db.rs`: which end of a relationship an item
is on (`Source` = `from_id`, `Dest` = `to_id`). -/
inductive RelationshipSide where
  | source
  | dest
deriving DecidableEq

/-- A row of the `relationships(id, from_name, to_name)` table
(`Relationship` in `src/db.rs`). -/
structure Relationship where
  from_name : String
  to_name : String
  id : Int
deriving DecidableEq

/-- `ItemRelationship` in `src/db.rs`: one side of an `item_relationships`
row as seen from a given item. -/
structure ItemRelationship where
  id : Int
  side : RelationshipSide
  sibling : Int
deriving DecidableEq

/-- A row of the `files(id, name)` table. -/
structure FileRow where
  id : Int
  name : String
deriving DecidableEq

/-- A row of the `item_relationships(from_id, to_id, relationship_id)` table. -/
structure ItemRelRow where
  from_id : Int
  to_id : Int
  relationship_id : Int
deriving DecidableEq

/-- `Condition` in `src/db.rs` (the resolver's revision calls these filter
rules): a single predicate over items. -/
inductive Condition where
  | noRelationship (side : RelationshipSide) (id : Int)
  | hasRelationshipWithVariableItem (side : RelationshipSide) (id : Int)
  | noRelationshipWithSpecificItem (item : Int) (side : RelationshipSide) (id : Int)
deriving DecidableEq

/-- Modelled from the spec: the resolver (`src/fuse/client.rs`) calls
`db.get_filters()`, which is absent from the `src/db.rs` revision in the
snapshot (only `get_root_filters`/`get_condition_sets` exist).  Per the
spec, a root filter is "a ConditionSet surfaced as a top-level virtual
directory named by the set's name", with an id, a name and an ordered rule
list; we store those rows directly. -/
structure Filter where
  id : Int
  name : String
  rules : List Condition
deriving DecidableEq

/-- The embedded metadata store: the tables behind the `Db` connection in
`src/db.rs`, the `item_path` root for content folders, and the rowid
allocation counters (`INTEGER PRIMARY KEY` rowids are handed out
monotonically by SQLite; `files` additionally declares `AUTOINCREMENT`). -/
structure Db where
  files : List FileRow
  relationships : List Relationship
  item_relationships : List ItemRelRow
  root_filters : List Filter
  next_file_id : Int
  next_rel_id : Int
  item_path : List String

/-- The host filesystem visible to the process: which absolute paths exist
as directories, regular files and symlinks, the directory holding the tool
binaries (parent of `std::env::args().next()`), and the return code of a
host `open` call on a passthrough path. -/
structure Host where
  dirs : List (List String)
  regulars : List (List String)
  links : List (List String)
  exe_dir : List String
  openCode : List String → Int

/-- The whole system state the FUSE client operates on: store plus host. -/
structure Sys where
  db : Db
  host : Host

/-- `Path::exists()` on the host. -/
def Host.pathExists (h : Host) (p : List String) : Bool :=
  p ∈ h.dirs || p ∈ h.regulars || p ∈ h.links

/-- `fs::create_dir_all`: creates the directory and all missing ancestors
(modelled as adding every nonempty prefix of the path). -/
def Host.createDirAll (h : Host) (p : List String) : Host :=
  { h with dirs := p.inits.filter (fun q => ¬q.isEmpty) ++ h.dirs }

/-- `fs::remove_dir_all`: removes the directory and everything below it. -/
def Host.removeDirAll (h : Host) (p : List String) : Host :=
  { h with
    dirs := h.dirs.filter (fun d => ¬p.isPrefixOf d)
    regulars := h.regulars.filter (fun d => ¬p.isPrefixOf d)
    links := h.links.filter (fun d => ¬p.isPrefixOf d) }

/-! ## Store queries (src/db.rs) -/

/-- `Db::get_relationship`: `SELECT id, from_name, to_name FROM relationships
WHERE id = ?1`, first row.  The sqlite-level `QueryError`s have no
counterpart in the embedding, so the result is the inner `Option`. -/
def Db.get_relationship (db : Db) (id : Int) : Option Relationship :=
  db.relationships.find? (fun r => r.id = id)

/-- The per-item view of the `item_relationships` table built inside
`Db::get_items`: for each row, the item is `Source` when it is `from_id`
(sibling `to_id`) and `Dest` when it is `to_id` (sibling `from_id`),
in table order. -/
def relsForItem : List ItemRelRow → Int → List ItemRelationship
  | [], _ => []
  | r :: rest, id =>
    ((if r.from_id = id then [⟨r.relationship_id, RelationshipSide.source, r.to_id⟩] else []) ++
      (if r.to_id = id then [⟨r.relationship_id, RelationshipSide.dest, r.from_id⟩] else [])) ++
      relsForItem rest id

/-- `DbItem` in `src/db.rs` (the `path` field is `item_path/<id>`). -/
structure DbItem where
  path : List String
  id : Int
  relationships : List ItemRelationship
  name : String
deriving DecidableEq

/-- `Db::get_items` restricted to one id, i.e. `Db::get_item_by_id`:
find the first `files` row with the id and attach its relationships. -/
def Db.get_item_by_id (db : Db) (id : Int) : Option DbItem :=
  (db.files.find? (fun f => f.id = id)).map (fun f =>
    { path := db.item_path ++ [toString f.id]
      id := f.id
      relationships := relsForItem db.item_relationships f.id
      name := f.name })

/-- `Db::find_relationship`: `SELECT id FROM relationships WHERE
from_name = ?1 OR to_name = ?1 OR from_name = ?2 OR to_name = ?2`,
first row (`?1` = the new `from_name`, `?2` = the new `to_name`). -/
def Db.find_relationship (db : Db) (from_name to_name : String) : Option Int :=
  (db.relationships.find? (fun r =>
    r.from_name = from_name ∨ r.to_name = from_name ∨
      r.from_name = to_name ∨ r.to_name = to_name)).map (fun r => r.id)

/-- `AddRelationshipError` (the sqlite transaction failures cannot occur in
the embedding, leaving `AlreadyExists`). -/
inductive AddRelationshipError where
  | alreadyExists (id : Int)
deriving DecidableEq

/-- `Db::add_relationship`: reject if any of the four name slots collides
with an existing row, otherwise insert and return the fresh rowid. -/
def Db.add_relationship (db : Db) (from_name to_name : String) :
    Except AddRelationshipError (Int × Db) :=
  match db.find_relationship from_name to_name with
  | some id => .error (.alreadyExists id)
  | none =>
    let id := db.next_rel_id
    .ok (id, { db with
      relationships := db.relationships ++ [⟨from_name, to_name, id⟩]
      next_rel_id := id + 1 })

/-- `CreateItemError` cases reachable in the embedding. -/
inductive CreateItemError where
  | itemExists
deriving DecidableEq

/-- `Db::create_item`: inside a transaction, insert the `files` row (rowid
`next_file_id`), fail with `ItemExists` if `item_path/<id>` already exists
on the host (the dropped transaction rolls the insert back, so the
returned state is the input state), otherwise create the content directory
and commit. -/
def create_item (s : Sys) (name : String) :
    Except CreateItemError Int × Sys :=
  let id := s.db.next_file_id
  let staged : Db := { s.db with
    files := s.db.files ++ [⟨id, name⟩]
    next_file_id := id + 1 }
  let item_path := s.db.item_path ++ [toString id]
  if s.host.pathExists item_path then
    (.error .itemExists, s)
  else
    (.ok id, { db := staged, host := s.host.createDirAll item_path })

/-- `DeleteItemError` cases reachable in the embedding:
`fs::remove_dir_all` fails when the content directory is absent. -/
inductive DeleteItemError where
  | removeItemPath
deriving DecidableEq

/-- `Db::delete_item`: inside a transaction, delete every
`item_relationships` row referencing the id on either side, delete the
`files` row, then `fs::remove_dir_all(item_path/<id>)`; the transaction
commits only if the removal succeeded, otherwise it is dropped and the
state is unchanged. -/
def delete_item (s : Sys) (id : Int) : Except DeleteItemError Sys :=
  let item_path := s.db.item_path ++ [toString id]
  if item_path ∈ s.host.dirs then
    .ok { db := { s.db with
            item_relationships :=
              s.db.item_relationships.filter (fun r => ¬(r.from_id = id ∨ r.to_id = id))
            files := s.db.files.filter (fun f => ¬f.id = id) }
          host := s.host.removeDirAll item_path }
  else
    .error .removeItemPath

/-- Modelled from the spec: `get_filters` (see `Filter`) returns the root
filters in table order. -/
def Db.get_filters (db : Db) : List Filter :=
  db.root_filters

/-- `Db::content_folder_for_id`: `item_path/<id>` canonicalized.
`canonicalize` fails when the path does not exist; the embedding assumes
`item_path` is absolute and symlink-free, so on success it is the
identity. -/
def Db.content_folder_for_id (s : Sys) (id : Int) : Except Unit (List String) :=
  let p := s.db.item_path ++ [toString id]
  if p ∈ s.host.dirs then .ok p else .error ()

/-! ## The conditional query compiler (src/db.rs) -/

/-- The `ON` fragment selecting the item's side of the join, exactly as
rendered by `ConditionSqlGenerator`. -/
def sideToConditionStr (side : RelationshipSide) : String :=
  match side with
  | .dest => "item_relationships.to_id = files.id"
  | .source => "item_relationships.from_id = files.id"

/-- The column holding the contralateral item, exactly as rendered by
`ConditionSqlGenerator`. -/
def sideToOtherSideIdStr (side : RelationshipSide) : String :=
  match side with
  | .dest => "item_relationships.from_id"
  | .source => "item_relationships.to_id"

/-- `ConditionSqlGenerator`'s `Display` output for one condition.  The
variable-item arm `unwrap`s the context item; `none` models that panic. -/
def Condition.sql (c : Condition) (item_context : Option Int) : Option String :=
  match c with
  | .noRelationship side id =>
    some ("files.id not in (SELECT files.id FROM files JOIN item_relationships ON "
      ++ sideToConditionStr side ++ " AND relationship_id = " ++ toString id ++ ")")
  | .hasRelationshipWithVariableItem side relationship_id =>
    (item_context).map (fun item_id =>
      "files.id in (SELECT files.id FROM files JOIN item_relationships ON "
        ++ sideToConditionStr side ++ " AND relationship_id = " ++ toString relationship_id
        ++ " AND " ++ sideToOtherSideIdStr side ++ " = " ++ toString item_id ++ ")")
  | .noRelationshipWithSpecificItem item_id side relationship_id =>
    some ("files.id not in (SELECT files.id FROM files JOIN item_relationships ON "
      ++ sideToConditionStr side ++ " AND relationship_id = " ++ toString relationship_id
      ++ " AND " ++ sideToOtherSideIdStr side ++ " = " ++ toString item_id ++ ")")

/-- The SQL statement assembled by `Db::run_filter`: the first condition is
prefixed with `WHERE`, the rest with `AND`; `none` when rendering any
condition panics. -/
def runFilterQuery (conditions : List Condition) (item_id : Option Int) : Option String := do
  let base := "SELECT files.id FROM files "
  match conditions with
  | [] => return base
  | c :: rest =>
    let first ← c.sql item_id
    let tail ← rest.mapM (fun c => (c.sql item_id).map (fun s => "AND (" ++ s ++ ") "))
    return base ++ "WHERE (" ++ first ++ ") " ++ String.join tail

/-- Whether an `item_relationships` row matches the item on the given side. -/
def sideHit (side : RelationshipSide) (r : ItemRelRow) (fid : Int) : Bool :=
  match side with
  | .dest => r.to_id = fid
  | .source => r.from_id = fid

/-- The contralateral item id of a row relative to the given side. -/
def otherSideId (side : RelationshipSide) (r : ItemRelRow) : Int :=
  match side with
  | .dest => r.from_id
  | .source => r.to_id

/-- The meaning of one rendered condition subquery on a `files.id`:
membership of the id in the `[NOT] IN (SELECT … JOIN item_relationships …)`
set.  `none` models the `unwrap` panic of the variable-item arm without a
context item. -/
def condSatisfied (rows : List ItemRelRow) (item_context : Option Int) (fid : Int) :
    Condition → Option Bool
  | .noRelationship side rid =>
    some (¬rows.any (fun r => sideHit side r fid && r.relationship_id = rid))
  | .hasRelationshipWithVariableItem side rid =>
    item_context.map (fun ctx =>
      rows.any (fun r => sideHit side r fid && r.relationship_id = rid && otherSideId side r = ctx))
  | .noRelationshipWithSpecificItem iid side rid =>
    some (¬rows.any (fun r =>
      sideHit side r fid && r.relationship_id = rid && otherSideId side r = iid))

/-- The conjunction of all rendered conditions on one `files.id` (the
`WHERE (c₁) AND (c₂) …` clause); `none` models the rendering panic. -/
def whereClauseHolds (rows : List ItemRelRow) (item_id : Option Int) (fid : Int) :
    List Condition → Option Bool
  | [] => some true
  | c :: rest => do
    let b ← condSatisfied rows item_id fid c
    let bs ← whereClauseHolds rows item_id fid rest
    return b && bs

/-- The `files` rows kept by the where clause, in table order. -/
def filesKept (rows : List ItemRelRow) (item_id : Option Int) (conds : List Condition) :
    List FileRow → Option (List FileRow)
  | [] => some []
  | f :: rest => do
    let b ← whereClauseHolds rows item_id f.id conds
    let tail ← filesKept rows item_id conds rest
    return if b then f :: tail else tail

/-- `Db::run_filter`: evaluate the assembled `SELECT files.id FROM files
[WHERE (c₁) AND (c₂) …]` statement — the ids of the `files` rows, in table
order, satisfying every condition.  `none` models the rendering panic. -/
def Db.run_filter (db : Db) (conditions : List Condition) (item_id : Option Int) :
    Option (List Int) :=
  (filesKept db.item_relationships item_id conditions db.files).map
    (List.map (fun f => f.id))

/-! ## The path resolver (src/fuse/client.rs) -/

/-- `PathPurpose` from `src/fuse/client.rs`: the typed classification of a
virtual path. -/
inductive PathPurpose where
  | root
  | toolBins
  | items
  | relationships
  | socket
  | item (id : Int)
  | itemId (id : Int)
  | itemName (id : Int)
  | relationship (id : Int)
  | relationshipId (id : Int)
  | relationshipFromName (id : Int)
  | relationshipToName (id : Int)
  | itemRelationships (item : Int) (rel : Int) (side : RelationshipSide)
  | itemLink (id : Int)
  | passthroughPath (p : List String)
  | filter (id : Int)
  | unknown
deriving DecidableEq

/-- One categorized label: `(RelationshipId, RelationshipSide, String)`. -/
abbrev LabelEntry := Int × RelationshipSide × String

/-- `HashSet::insert` observed through iteration: keep the element set,
here as a duplicate-free list in first-insertion order. -/
def hsInsert (acc : List LabelEntry) (x : LabelEntry) : List LabelEntry :=
  if x ∈ acc then acc else acc ++ [x]

/-- The label displayed for an item-relationship: the relationship row's
`from_name` when the item is on the `Dest` side, `to_name` when `Source`. -/
def labelName (side : RelationshipSide) (r : Relationship) : String :=
  match side with
  | .dest => r.from_name
  | .source => r.to_name

/-- The loop body of `categorize_relationships`, with the accumulated
`HashSet` made explicit.  The error carries the id of a relationship row
missing from the `relationships` table. -/
def categorizeRelAux (db : Db) :
    List ItemRelationship → List LabelEntry → Except Int (List LabelEntry)
  | [], acc => .ok acc
  | ir :: rest, acc =>
    match db.get_relationship ir.id with
    | none => .error ir.id
    | some r => categorizeRelAux db rest (hsInsert acc (ir.id, ir.side, labelName ir.side r))

/-- `categorize_relationships` from `src/fuse/client.rs`: deduplicate the
item's relationships into `(relationship_id, side, label)` triples. -/
def categorize_relationships (rels : List ItemRelationship) (db : Db) :
    Except Int (List LabelEntry) :=
  categorizeRelAux db rels []

/-- `ReadDirError` cases reachable in the embedding. -/
inductive ReadDirError where
  | itemIdNotInDatabase
  | categorizeRelationships (id : Int)
  | getContentFolder
  | findFilter
  | readDbDir
  | getFiletype
  | notADirectory
deriving DecidableEq

/-- The outcome of embedded code that can return a value, fail with a
typed error, or unwind with a panic.  A `panicked` outcome is not
recoverable: every function the unwinding passes through propagates it
(in the source the panic crosses the FUSE C callback boundary and aborts
the process). -/
inductive Outcome (ε α : Type) where
  | ok (a : α)
  | error (e : ε)
  | panicked
deriving DecidableEq

/-- The entries of a passthrough directory: the name and full path of every
host object directly below `p` (`fs::read_dir`); fails when `p` is not an
existing host directory. -/
def Host.readDir (h : Host) (p : List String) :
    Except ReadDirError (List (List String × String)) :=
  if p ∈ h.dirs then
    .ok ((h.dirs ++ h.regulars ++ h.links).filterMap (fun q =>
      match q.getLast? with
      | none => none
      | some name => if q.dropLast = p ∧ q ≠ p then some (q, name) else none))
  else
    .error .readDbDir

/-- The four tool binaries listed under `/bin`. -/
def toolBinNames : List String :=
  ["create-item", "create-item-relationship", "create-relationship", "create-filter"]

/-- `FuseClient::list_dir_contents`: enumerate the `(purpose, name)`
children of a parent purpose.  Enumerating a filter directory whose
conditions contain `HasRelationshipWithVariableItem` panics (the
`item_context.unwrap()` inside the condition renderer runs with no context
item), hence the `Outcome` result. -/
def list_dir_contents (s : Sys) : PathPurpose →
    Outcome ReadDirError (List (PathPurpose × String))
  | .root =>
    .ok ([(.items, "items"), (.relationships, "relationships"),
          (.toolBins, "bin"), (.socket, ".api_handle")] ++
      s.db.get_filters.map (fun f => (.filter f.id, f.name)))
  | .items =>
    .ok (s.db.files.map (fun f => (.item f.id, toString f.id)))
  | .relationships =>
    .ok (s.db.relationships.map (fun r => (.relationship r.id, toString r.id)))
  | .relationship id =>
    .ok [(.relationshipId id, "id"), (.relationshipFromName id, "from_name"),
         (.relationshipToName id, "to_name")]
  | .item id =>
    match s.db.get_item_by_id id with
    | none => .error .itemIdNotInDatabase
    | some item =>
      match categorize_relationships item.relationships s.db with
      | .error rid => .error (.categorizeRelationships rid)
      | .ok labels =>
        match Db.content_folder_for_id s id with
        | .error _ => .error .getContentFolder
        | .ok passthrough =>
          .ok (labels.map (fun l => (.itemRelationships id l.1 l.2.1, l.2.2)) ++
            [(.passthroughPath passthrough, "content"), (.itemId id, "id"),
             (.itemName id, "name")])
  | .filter filter_id =>
    match s.db.get_filters.find? (fun f => f.id = filter_id) with
    | none => .error .findFilter
    | some filter =>
      -- the resolver runs the filter without a context item; `none` is the
      -- `item_context.unwrap()` panic, which unwinds out of the enumeration
      match s.db.run_filter filter.rules none with
      | none => .panicked
      | some ids =>
        match ids.mapM (fun iid =>
          match s.db.get_item_by_id iid with
          | none => Except.error ReadDirError.itemIdNotInDatabase
          | some item => Except.ok ((PathPurpose.itemLink iid, item.name))) with
        | .error e => .error e
        | .ok entries => .ok entries
  | .toolBins =>
    .ok (toolBinNames.map (fun n => (.passthroughPath (s.host.exe_dir ++ [n]), n)))
  | .socket => .error .notADirectory
  | .itemLink _ => .error .notADirectory
  | .itemId _ => .error .notADirectory
  | .itemName _ => .error .notADirectory
  | .relationshipId _ => .error .notADirectory
  | .relationshipFromName _ => .error .notADirectory
  | .relationshipToName _ => .error .notADirectory
  | .itemRelationships item_id relationship_id relationship_side =>
    match s.db.get_item_by_id item_id with
    | none => .error .itemIdNotInDatabase
    | some item =>
      let matching := item.relationships.filter (fun r =>
        r.id = relationship_id ∧ r.side = relationship_side)
      -- siblings missing from the db are logged and dropped (filter_map)
      .ok (matching.filterMap (fun ir =>
        (s.db.get_item_by_id ir.sibling).map
          (fun sib => (.itemLink sib.id, sib.name))))
  | .passthroughPath p =>
    match s.host.readDir p with
    | .error e => .error e
    | .ok entries => .ok (entries.map (fun e => (.passthroughPath e.1, e.2)))
  | .unknown => .error .notADirectory

/-- `ParsePathError` cases reachable in the embedding (component names are
already decoded strings, so the UTF-8 failure arm is vacuous). -/
inductive ParsePathError where
  | readDir (e : ReadDirError)
deriving DecidableEq

/-- `FuseClient::parse_path` on the reversed component list (the head is
the file name, the tail the reversed parent): resolve the parent; a
passthrough parent makes the child passthrough without consulting the
host, otherwise enumerate the parent and match by name.  A panic inside
the enumeration (see `list_dir_contents`) unwinds through the recursion. -/
def parsePathRev (s : Sys) : List String → Outcome ParsePathError PathPurpose
  | [] => .ok .root
  | name :: parentRev =>
    match parsePathRev s parentRev with
    | .panicked => .panicked
    | .error e => .error e
    | .ok (.passthroughPath p) => .ok (.passthroughPath (p ++ [name]))
    | .ok pp =>
      match list_dir_contents s pp with
      | .panicked => .panicked
      | .error e => .error (ParsePathError.readDir e)
      | .ok contents =>
        match contents.find? (fun item => item.2 = name) with
        | none => .ok .unknown
        | some item => .ok item.1

/-- `FuseClient::parse_path`: an absolute path, embedded as its list of
non-root components ( `[]` is `/` ). -/
def parse_path (s : Sys) (path : List String) : Outcome ParsePathError PathPurpose :=
  parsePathRev s path.reverse

/-- `ReadLinkError` from `src/fuse/client.rs`. -/
inductive ReadLinkError where
  | parsePath (e : ParsePathError)
  | notALink
deriving DecidableEq

/-- `FuseClient::readlink`: for an `ItemLink(id)`, `../` repeated
(`path.iter().count() - 2`) times followed by `items/<id>`.  On an
absolute Rust path the iterator yields the leading `/` too, so the count
is `path.length + 1`. -/
def readlink (s : Sys) (path : List String) : Outcome ReadLinkError (List String) :=
  match parse_path s path with
  | .panicked => .panicked
  | .error e => .error (.parsePath e)
  | .ok (.itemLink item_id) =>
    .ok (List.replicate (path.length + 1 - 2) ".." ++ ["items", toString item_id])
  | .ok _ => .error .notALink

/-! ## Metadata file contents and filetypes (src/fuse/client.rs) -/

/-- The UTF-8 bytes of a string, as natural numbers. -/
def strBytes (s : String) : List Nat :=
  (s.data.flatMap String.utf8EncodeChar).map (fun b => b.toNat)

/-- `with_newline_as_vec`: append a newline and take the bytes. -/
def with_newline_as_vec (s : String) : List Nat :=
  strBytes (s ++ "\n")

/-- `get_item_id_file_contents`: the decimal id plus newline. -/
def get_item_id_file_contents (id : Int) : List Nat :=
  with_newline_as_vec (toString id)

/-- `get_relationship_id_file_contents`. -/
def get_relationship_id_file_contents (id : Int) : List Nat :=
  with_newline_as_vec (toString id)

/-- `get_item_name_file_contents`: the item's name plus newline, empty if
the item disappeared. -/
def get_item_name_file_contents (id : Int) (db : Db) : List Nat :=
  match db.get_item_by_id id with
  | none => []
  | some item => with_newline_as_vec item.name

/-- `get_relationship_from_name_file_contents` (query errors cannot occur
in the embedding). -/
def get_relationship_from_name_file_contents (id : Int) (db : Db) : List Nat :=
  match db.get_relationship id with
  | none => []
  | some r => with_newline_as_vec r.from_name

/-- `get_relationship_to_name_file_contents`. -/
def get_relationship_to_name_file_contents (id : Int) (db : Db) : List Nat :=
  match db.get_relationship id with
  | none => []
  | some r => with_newline_as_vec r.to_name

/-- `Filetype` from `src/fuse/client.rs`. -/
inductive Filetype where
  | dir
  | file (size : Nat)
  | link
deriving DecidableEq

/-- Host `metadata()` for a passthrough path: directory, symlink or
regular file (size reported as 0, as in the source); fails when the path
does not exist. -/
def Host.metadataFiletype (h : Host) (p : List String) : Except Unit Filetype :=
  if p ∈ h.dirs then .ok .dir
  else if p ∈ h.links then .ok .link
  else if p ∈ h.regulars then .ok (.file 0)
  else .error ()

/-- `path_purpose_to_filetype`: all container purposes (including
`Unknown`) are directories, `ItemLink` is a symlink, metadata purposes are
regular files sized by their rendered contents, passthrough defers to host
metadata. -/
def path_purpose_to_filetype (purpose : PathPurpose) (s : Sys) : Except Unit Filetype :=
  match purpose with
  | .root => .ok .dir
  | .toolBins => .ok .dir
  | .items => .ok .dir
  | .relationships => .ok .dir
  | .item _ => .ok .dir
  | .relationship _ => .ok .dir
  | .filter _ => .ok .dir
  | .itemRelationships _ _ _ => .ok .dir
  | .unknown => .ok .dir
  | .itemLink _ => .ok .link
  | .socket => .ok (.file 0)
  | .itemId id => .ok (.file (get_item_id_file_contents id).length)
  | .itemName id => .ok (.file (get_item_name_file_contents id s.db).length)
  | .relationshipId id => .ok (.file (get_relationship_id_file_contents id).length)
  | .relationshipFromName id =>
    .ok (.file (get_relationship_from_name_file_contents id s.db).length)
  | .relationshipToName id =>
    .ok (.file (get_relationship_to_name_file_contents id s.db).length)
  | .passthroughPath p => s.host.metadataFiletype p

/-! ## The FUSE client state: socket handles (src/fuse/client.rs) -/

/-- The mutable part of `FuseClient`: the next handle id and the per-handle
response buffers (`HashMap<u64, VecDeque<u8>>`, embedded as an association
list with the newest binding first). -/
structure FuseClient where
  latest_open_id : Nat
  open_files : List (Nat × List Nat)
deriving DecidableEq

/-- `HashMap::get` on the association list. -/
def hmLookup (m : List (Nat × List Nat)) (k : Nat) : Option (List Nat) :=
  (m.find? (fun kv => kv.1 = k)).map (fun kv => kv.2)

/-- `HashMap::insert`: bind `k` to `v`, dropping any previous binding. -/
def hmInsert (m : List (Nat × List Nat)) (k : Nat) (v : List Nat) :
    List (Nat × List Nat) :=
  (k, v) :: m.filter (fun kv => ¬kv.1 = k)

/-- `HashMap::remove`. -/
def hmRemove (m : List (Nat × List Nat)) (k : Nat) : List (Nat × List Nat) :=
  m.filter (fun kv => ¬kv.1 = k)

/-- `OpenRet` from `src/fuse/client.rs`. -/
inductive OpenRet where
  | socket (id : Nat)
  | noop
  | unhandled
deriving DecidableEq

/-- `FuseClient::open`: the socket allocates a fresh empty response buffer
under `latest_open_id` and increments it; metadata files are a no-op;
anything else is unhandled.  A resolution panic unwinds. -/
def FuseClient.open (c : FuseClient) (s : Sys) (path : List String) :
    Outcome ParsePathError (OpenRet × FuseClient) :=
  match parse_path s path with
  | .panicked => .panicked
  | .error e => .error e
  | .ok purpose =>
    match purpose with
    | .socket =>
      let id := c.latest_open_id
      .ok (.socket id,
        { latest_open_id := id + 1, open_files := hmInsert c.open_files id [] })
    | .itemId _ => .ok (.noop, c)
    | .itemName _ => .ok (.noop, c)
    | .relationshipId _ => .ok (.noop, c)
    | .relationshipToName _ => .ok (.noop, c)
    | .relationshipFromName _ => .ok (.noop, c)
    | _ => .ok (.unhandled, c)

/-- `FuseClient::release`: drop the handle's response buffer. -/
def FuseClient.release (c : FuseClient) (id : Nat) : FuseClient :=
  { c with open_files := hmRemove c.open_files id }

/-- The outcome of `FuseClient::read`: the bytes delivered plus the updated
client, a `ReadError`, or a panic.  The panic arm is the slice copy
`buf[0..content.len()]`, which is out of range when the caller's buffer is
shorter than the rendered content. -/
inductive ReadOutcome where
  | ok (bytes : List Nat) (c : FuseClient)
  | failed
  | panicked
deriving DecidableEq

/-- Copy a rendered metadata content into a `bufLen`-byte buffer:
`buf[0..content.len()].copy_from_slice(&content)` then `Ok(content.len())`. -/
def copyToBuf (content : List Nat) (bufLen : Nat) (c : FuseClient) : ReadOutcome :=
  if content.length ≤ bufLen then .ok content c else .panicked

/-- `FuseClient::read`: the socket drains up to `bufLen` bytes from the
handle's response buffer (`io::Read` on a `VecDeque`, reading from the
front); metadata files rerender their contents into the buffer;
everything else is `UnhandledPath`.  A panic inside `parse_path` (the
filter-enumeration `unwrap`) unwinds out of `read` itself. -/
def FuseClient.read (c : FuseClient) (s : Sys) (path : List String) (id : Nat)
    (bufLen : Nat) : ReadOutcome :=
  match parse_path s path with
  | .panicked => .panicked
  | .error _ => .failed
  | .ok purpose =>
    match purpose with
    | .socket =>
      match hmLookup c.open_files id with
      | none => .failed
      | some buf =>
        let k := min bufLen buf.length
        .ok (buf.take k) { c with open_files := hmInsert c.open_files id (buf.drop k) }
    | .itemId iid => copyToBuf (get_item_id_file_contents iid) bufLen c
    | .itemName iid => copyToBuf (get_item_name_file_contents iid s.db) bufLen c
    | .relationshipId rid => copyToBuf (get_relationship_id_file_contents rid) bufLen c
    | .relationshipFromName rid =>
      copyToBuf (get_relationship_from_name_file_contents rid s.db) bufLen c
    | .relationshipToName rid =>
      copyToBuf (get_relationship_to_name_file_contents rid s.db) bufLen c
    | _ => .failed

/-! ## The FUSE operation adapter (src/fuse/mod.rs) -/

/-- `FuseClient::get_passthrough_path`. -/
def get_passthrough_path (s : Sys) (path : List String) :
    Outcome ParsePathError (Option (List String)) :=
  match parse_path s path with
  | .panicked => .panicked
  | .error e => .error e
  | .ok (.passthroughPath p) => .ok (some p)
  | .ok _ => .ok none

/-- Host `lstat` for the passthrough arm of `getattr`: `-ENOENT` (= `-2`)
when the path is absent. -/
def Host.lstatResult (h : Host) (p : List String) : Except Int Filetype :=
  if p ∈ h.dirs then .ok .dir
  else if p ∈ h.links then .ok .link
  else if p ∈ h.regulars then .ok (.file 0)
  else .error (-2)

/-- `fuse_client_getattr`: `.ok ft` is a 0 return with the stat buffer
filled from the filetype (mode 0755/0777/0666, size from the rendered
length); `.error c` is the negative return code (`-1` for any engine
error, a negated errno for passthrough `lstat`); a resolution panic
unwinds (aborting the process at the C callback boundary). -/
def fuse_client_getattr (s : Sys) (path : List String) : Outcome Int Filetype :=
  match get_passthrough_path s path with
  | .panicked => .panicked
  | .error _ => .error (-1)
  | .ok (some p) =>
    match s.host.lstatResult p with
    | .error code => .error code
    | .ok ft => .ok ft
  | .ok none =>
    match parse_path s path with
    | .panicked => .panicked
    | .error _ => .error (-1)
    | .ok purpose =>
      match path_purpose_to_filetype purpose s with
      | .error _ => .error (-1)
      | .ok ft => .ok ft

/-- `DirEntry` from `src/fuse/client.rs`. -/
inductive DirEntry where
  | dir (name : String)
  | file (name : String)
  | link (name : String)
deriving DecidableEq

/-- `FuseClient::readdir`: resolve, enumerate, derive each child's entry
type. -/
def client_readdir (s : Sys) (path : List String) :
    Outcome ReadDirError (List DirEntry) :=
  match parse_path s path with
  | .panicked => .panicked
  | .error (.readDir e) => .error e
  | .ok purpose =>
    match list_dir_contents s purpose with
    | .panicked => .panicked
    | .error e => .error e
    | .ok contents =>
      match contents.mapM (fun item =>
        match path_purpose_to_filetype item.1 s with
        | .error _ => Except.error ReadDirError.getFiletype
        | .ok .dir => Except.ok (DirEntry.dir item.2)
        | .ok (.file _) => Except.ok (DirEntry.file item.2)
        | .ok .link => Except.ok (DirEntry.link item.2)) with
      | .error e => .error e
      | .ok entries => .ok entries

/-- `fuse_client_readdir`: any engine error becomes the generic `-1`; a
panic unwinds. -/
def fuse_client_readdir (s : Sys) (path : List String) : Outcome Int (List DirEntry) :=
  match client_readdir s path with
  | .panicked => .panicked
  | .error _ => .error (-1)
  | .ok entries => .ok entries

/-- `fuse_client_open` return code only (`0` on success; the host open's
code for passthrough; `-1` for unhandled or failed opens).  On a
resolution panic the source has no return code (the process aborts); this
`Int`-valued projection maps that dead arm to `-1`, and
`FuseClient.open`/`get_passthrough_path` are the panic-aware views. -/
def fuse_client_open_code (s : Sys) (c : FuseClient) (path : List String) : Int :=
  match get_passthrough_path s path with
  | .panicked => -1
  | .error _ => -1
  | .ok (some p) => if s.host.openCode p < 0 then s.host.openCode p else 0
  | .ok none =>
    match c.open s path with
    | .ok (.socket _, _) => 0
    | .ok (.noop, _) => 0
    | .ok (.unhandled, _) => -1
    | .error _ => -1
    | .panicked => -1

/-- The length of the content `FuseClient::read` renders into the caller's
buffer for a path (0 for the socket and for unhandled paths, which never
copy). -/
def renderedReadLen (s : Sys) (path : List String) : Nat :=
  match parse_path s path with
  | .ok (.itemId id) => (get_item_id_file_contents id).length
  | .ok (.itemName id) => (get_item_name_file_contents id s.db).length
  | .ok (.relationshipId id) => (get_relationship_id_file_contents id).length
  | .ok (.relationshipFromName id) => (get_relationship_from_name_file_contents id s.db).length
  | .ok (.relationshipToName id) => (get_relationship_to_name_file_contents id s.db).length
  | _ => 0

/-! ## Concrete instances (the spec's create-and-browse scenario) -/

/-- Scenario store: items `alice` (1) and `bob` (2), relationship
`(parents, children)` (1), item-relationship `(1, 2, 1)`, root filter
`orphans` = `[NoRelationship(Dest, 1)]`. -/
def exampleDb : Db :=
  { files := [⟨1, "alice"⟩, ⟨2, "bob"⟩]
    relationships := [⟨"parents", "children", 1⟩]
    item_relationships := [⟨1, 2, 1⟩]
    root_filters := [⟨1, "orphans", [.noRelationship .dest 1]⟩]
    next_file_id := 3
    next_rel_id := 2
    item_path := ["store", "items"] }

/-- Scenario host: the store root and both content directories exist;
nothing else does. -/
def exampleHost : Host :=
  { dirs := [["store", "items"], ["store", "items", "1"], ["store", "items", "2"]]
    regulars := []
    links := []
    exe_dir := ["tools"]
    openCode := fun _ => 0 }

/-- Scenario system state. -/
def exampleSys : Sys := { db := exampleDb, host := exampleHost }

/-- A client with no open handles. -/
def exampleClient : FuseClient := { latest_open_id := 0, open_files := [] }

/-- Scenario store extended with a second root filter `ctx` whose
condition set contains a `HasRelationshipWithVariableItem` condition — a
state `Db::add_root_filter` accepts — so enumerating `/ctx` runs the
filter with no context item and panics on the condition renderer's
`unwrap`. -/
def varFilterDb : Db :=
  { exampleDb with
    root_filters := exampleDb.root_filters ++
      [⟨2, "ctx", [.hasRelationshipWithVariableItem .source 1]⟩] }

/-- Scenario system whose `ctx` filter directory panics when enumerated. -/
def varFilterSys : Sys := { db := varFilterDb, host := exampleHost }

/-- Scenario host with a stale directory already occupying the content
path of the next item id (3). -/
def staleHost : Host :=
  { exampleHost with dirs := ["store", "items", "3"] :: exampleHost.dirs }

/-- Scenario system whose next `create_item` collides on disk. -/
def staleSys : Sys := { db := exampleDb, host := staleHost }

/-! # Theorems -/

/-! ## C1: passthrough parents resolve children without the host -/

/-- C1: for every path whose parent resolves to `PassthroughPath p` and
whose final component is a (valid-UTF-8) name, `parse_path` resolves the
path to `PassthroughPath (p / name)`.  The statement quantifies over every
system state, so in particular it holds when no entry of that name exists
on the host: the passthrough purpose is produced without consulting the
parent's child enumeration. -/
theorem parse_path_passthrough_child (s : Sys) (parent : List String)
    (name : String) (p : List String)
    (h : parse_path s parent = .ok (.passthroughPath p)) :
    parse_path s (parent ++ [name]) = .ok (.passthroughPath (p ++ [name])) := by
  unfold parse_path at h ⊢
  rw [List.reverse_append]
  simp only [List.reverse_cons, List.reverse_nil, List.nil_append, List.cons_append,
    List.singleton_append]
  unfold parsePathRev
  rw [h]

/-- C1 witness: in the scenario state, `/items/1/content` is the content
passthrough and `newfile` does not exist anywhere on the host, yet the
child resolves to the joined passthrough path. -/
theorem parse_path_passthrough_child_witness :
    parse_path exampleSys (["items", "1", "content"] ++ ["newfile"]) =
      .ok (.passthroughPath (["store", "items", "1"] ++ ["newfile"])) :=
  parse_path_passthrough_child exampleSys ["items", "1", "content"] "newfile"
    ["store", "items", "1"] rfl

/-! ## C3: readlink produces `../` × (components − 2) then `items/<id>` -/

/-- C3: for every path resolving to `ItemLink id`, `readlink` returns
`../` repeated (component count − 2) times followed by `items/<id>`, where
the component count of the absolute path includes the leading `/` (Rust
`path.iter().count()` = `path.length + 1` here). -/
theorem readlink_relative_target (s : Sys) (path : List String) (id : Int)
    (h : parse_path s path = .ok (.itemLink id)) :
    readlink s path =
      .ok (List.replicate (path.length + 1 - 2) ".." ++ ["items", toString id]) := by
  unfold readlink
  rw [h]

/-- C3 witness: the link at `/items/1/children/bob` (5 components counting
the root) yields `../../../items/2`, and the root-filter link
`/orphans/alice` (3 components) yields `../items/1`. -/
theorem readlink_relative_target_witness :
    readlink exampleSys ["items", "1", "children", "bob"] =
      .ok ["..", "..", "..", "items", "2"] ∧
    readlink exampleSys ["orphans", "alice"] = .ok ["..", "items", "1"] :=
  ⟨readlink_relative_target exampleSys ["items", "1", "children", "bob"] 2 rfl,
   readlink_relative_target exampleSys ["orphans", "alice"] 1 rfl⟩

/-! ## C6: the empty filter renders without WHERE and selects every item -/

/-- With no conditions every `files` row is kept. -/
theorem filesKept_nil_conditions (rows : List ItemRelRow) (ctx : Option Int) :
    ∀ fs : List FileRow, filesKept rows ctx [] fs = some fs := by
  intro fs
  induction fs with
  | nil => rfl
  | cons f rest ih => simp [filesKept, whereClauseHolds, ih]

/-- C6: `run_filter` on an empty condition list assembles the plain
`SELECT files.id FROM files ` statement — no `WHERE` occurs in it — and
returns the ids of all items in the store. -/
theorem run_filter_empty_conditions (db : Db) (ctx : Option Int) :
    runFilterQuery [] ctx = some "SELECT files.id FROM files " ∧
    ¬"WHERE".data <:+: "SELECT files.id FROM files ".data ∧
    db.run_filter [] ctx = some (db.files.map (fun f => f.id)) := by
  refine ⟨rfl, by decide, ?_⟩
  unfold Db.run_filter
  rw [filesKept_nil_conditions]
  rfl

/-! ## C7: delete_item cascades through rows and the content directory -/

/-- C7: a successful `delete_item id` removes exactly the
`item_relationships` rows referencing `id` on either side, removes the
`files` row for `id`, and removes the on-disk content directory tree, so
afterwards no item-relationship row references `id` and the host directory
`item_path/<id>` is absent. -/
theorem delete_item_cascade (s : Sys) (id : Int) (s2 : Sys)
    (h : delete_item s id = .ok s2) :
    s2.db.item_relationships =
      s.db.item_relationships.filter (fun r => ¬(r.from_id = id ∨ r.to_id = id)) ∧
    (∀ r ∈ s2.db.item_relationships, r.from_id ≠ id ∧ r.to_id ≠ id) ∧
    s2.db.files = s.db.files.filter (fun f => ¬f.id = id) ∧
    (s.db.item_path ++ [toString id]) ∉ s2.host.dirs := by
  unfold delete_item at h
  dsimp only at h
  split at h
  case isTrue hdir =>
    cases h
    refine ⟨rfl, ?_, rfl, ?_⟩
    · intro r hr
      have := List.of_mem_filter hr
      simpa using this
    · intro hmem
      have := List.of_mem_filter hmem
      simp [List.isPrefixOf_iff_prefix] at this
  case isFalse => cases h

/-- C7 witness: deleting item 2 from the scenario clears the sole
item-relationship row, the `files` row and the content directory. -/
theorem delete_item_cascade_witness :
    ∃ s2, delete_item exampleSys 2 = .ok s2 ∧
      (s2.db.item_relationships =
        exampleSys.db.item_relationships.filter
          (fun r => ¬(r.from_id = 2 ∨ r.to_id = 2)) ∧
      (∀ r ∈ s2.db.item_relationships, r.from_id ≠ 2 ∧ r.to_id ≠ 2) ∧
      s2.db.files = exampleSys.db.files.filter (fun f => ¬f.id = 2) ∧
      (exampleSys.db.item_path ++ [toString (2 : Int)]) ∉ s2.host.dirs) := by
  refine ⟨_, rfl, delete_item_cascade exampleSys 2 _ rfl⟩

/-! ## C8: create_item discards the staged row when the directory exists -/

/-- C8: whenever `create_item` fails — which in the embedding happens
exactly when the content directory `item_path/<next id>` already exists,
yielding `ItemExists` — the `files` row inserted earlier in the operation
is discarded with the dropped transaction: the returned state is exactly
the input state. -/
theorem create_item_atomic_on_failure (s : Sys) (name : String) (s2 : Sys)
    (e : CreateItemError) (h : create_item s name = (.error e, s2)) :
    s2 = s ∧ e = .itemExists ∧
      s.host.pathExists (s.db.item_path ++ [toString s.db.next_file_id]) = true := by
  unfold create_item at h
  dsimp only at h
  split at h
  case isTrue hex =>
    cases h
    exact ⟨rfl, rfl, hex⟩
  case isFalse => cases h

/-- C8 witness: with a stale `items/3` directory on disk, creating
`carol` fails with `ItemExists` and leaves the store untouched. -/
theorem create_item_atomic_on_failure_witness :
    create_item staleSys "carol" = (.error .itemExists, staleSys) ∧
    (staleSys = staleSys ∧ (CreateItemError.itemExists = .itemExists) ∧
      staleSys.host.pathExists
        (staleSys.db.item_path ++ [toString staleSys.db.next_file_id]) = true) :=
  ⟨rfl, create_item_atomic_on_failure staleSys "carol" staleSys .itemExists rfl⟩

/-! ## C5: add_relationship rejects any of the four name-slot collisions -/

/-- C5: `add_relationship from_name to_name` fails with `AlreadyExists` if
and only if some stored relationship already has `from_name` or `to_name`
among its own `from_name`/`to_name` slots; otherwise the new relationship
is inserted and its fresh id returned. -/
theorem add_relationship_collision (db : Db) (from_name to_name : String) :
    ((∃ id, db.add_relationship from_name to_name = .error (.alreadyExists id)) ↔
      ∃ r ∈ db.relationships,
        r.from_name = from_name ∨ r.to_name = from_name ∨
          r.from_name = to_name ∨ r.to_name = to_name) ∧
    ((¬∃ r ∈ db.relationships,
        r.from_name = from_name ∨ r.to_name = from_name ∨
          r.from_name = to_name ∨ r.to_name = to_name) →
      db.add_relationship from_name to_name =
        .ok (db.next_rel_id,
          { db with
            relationships := db.relationships ++ [⟨from_name, to_name, db.next_rel_id⟩]
            next_rel_id := db.next_rel_id + 1 })) := by
  unfold Db.add_relationship Db.find_relationship
  cases hf : db.relationships.find? (fun r =>
      r.from_name = from_name ∨ r.to_name = from_name ∨
        r.from_name = to_name ∨ r.to_name = to_name) with
  | none =>
    rw [List.find?_eq_none] at hf
    constructor
    · constructor
      · rintro ⟨id, hid⟩
        cases hid
      · rintro ⟨r, hr, hcol⟩
        exact absurd (by simpa using hcol) (hf r hr)
    · intro _
      rfl
  | some r =>
    have hmem := List.mem_of_find?_eq_some hf
    have hcol := List.find?_some hf
    constructor
    · constructor
      · intro _
        exact ⟨r, hmem, by simpa using hcol⟩
      · intro _
        exact ⟨r.id, rfl⟩
    · intro hnone
      exact absurd ⟨r, hmem, by simpa using hcol⟩ hnone

/-- C5 witness: in the scenario store, reusing the `children` slot as a
`from_name` is rejected, while two fresh names succeed and allocate id 2. -/
theorem add_relationship_collision_witness :
    (∃ id, exampleDb.add_relationship "children" "cousins" =
      .error (.alreadyExists id)) ∧
    exampleDb.add_relationship "siblings" "cousins" =
      .ok (2, { exampleDb with
        relationships := exampleDb.relationships ++ [⟨"siblings", "cousins", 2⟩]
        next_rel_id := 3 }) :=
  ⟨(add_relationship_collision exampleDb "children" "cousins").1.mpr (by decide),
   (add_relationship_collision exampleDb "siblings" "cousins").2 (by decide)⟩

/-! ## C10: socket reads consume what they return -/

/-- Looking up the just-inserted key. -/
theorem hmLookup_hmInsert_same (m : List (Nat × List Nat)) (k : Nat) (v : List Nat) :
    hmLookup (hmInsert m k v) k = some v := by
  simp [hmLookup, hmInsert, List.find?]

/-- `find?` by one key ignores a `filter` dropping a different key. -/
theorem find?_filter_other_key (m : List (Nat × List Nat)) (k k2 : Nat) (h : k2 ≠ k) :
    (m.filter (fun kv => ¬kv.1 = k)).find? (fun kv => kv.1 = k2) =
      m.find? (fun kv => kv.1 = k2) := by
  induction m with
  | nil => rfl
  | cons a t ih =>
    by_cases ha : a.1 = k
    · have ha2 : ¬a.1 = k2 := fun hh => h (hh ▸ ha)
      rw [List.filter_cons_of_neg (by simp [ha]),
        List.find?_cons_of_neg _ (by simpa using ha2), ih]
    · rw [List.filter_cons_of_pos (by simpa using ha)]
      by_cases hk2 : a.1 = k2
      · rw [List.find?_cons_of_pos _ (by simpa using hk2),
          List.find?_cons_of_pos _ (by simpa using hk2)]
      · rw [List.find?_cons_of_neg _ (by simpa using hk2),
          List.find?_cons_of_neg _ (by simpa using hk2), ih]

/-- Looking up another key after an insert. -/
theorem hmLookup_hmInsert_other (m : List (Nat × List Nat)) (k : Nat) (v : List Nat)
    (k2 : Nat) (h : k2 ≠ k) : hmLookup (hmInsert m k v) k2 = hmLookup m k2 := by
  unfold hmLookup hmInsert
  rw [List.find?_cons_of_neg _ (by simpa using fun hh => h hh.symm)]
  rw [find?_filter_other_key m k k2 h]

/-- Looking up the removed key. -/
theorem hmLookup_hmRemove_same (m : List (Nat × List Nat)) (k : Nat) :
    hmLookup (hmRemove m k) k = none := by
  simp only [hmLookup, hmRemove]
  rw [List.find?_eq_none.mpr]
  · rfl
  · intro kv hkv
    have := List.of_mem_filter hkv
    simpa using this

/-- Looking up another key after a removal. -/
theorem hmLookup_hmRemove_other (m : List (Nat × List Nat)) (k k2 : Nat) (h : k2 ≠ k) :
    hmLookup (hmRemove m k) k2 = hmLookup m k2 := by
  simp only [hmLookup, hmRemove]
  rw [find?_filter_other_key m k k2 h]

/-- C10: each `open` of the socket creates a fresh empty per-handle
response buffer (and bumps the handle counter, leaving other handles
untouched); a `read` on a handle removes exactly the bytes it returns from
that handle's buffer, so a read that drains the buffer makes the next read
on the same handle return zero bytes; `release` deletes exactly that
handle's buffer. -/
theorem socket_reads_consume (s : Sys) (path : List String)
    (hs : parse_path s path = .ok .socket) :
    (∀ c : FuseClient, ∃ c1,
      c.open s path = .ok (.socket c.latest_open_id, c1) ∧
      c1.latest_open_id = c.latest_open_id + 1 ∧
      hmLookup c1.open_files c.latest_open_id = some [] ∧
      (∀ k, k ≠ c.latest_open_id →
        hmLookup c1.open_files k = hmLookup c.open_files k)) ∧
    (∀ (c : FuseClient) (id : Nat) (buf : List Nat) (bufLen : Nat),
      hmLookup c.open_files id = some buf →
      ∃ c1, c.read s path id bufLen = .ok (buf.take (min bufLen buf.length)) c1 ∧
        hmLookup c1.open_files id = some (buf.drop (min bufLen buf.length))) ∧
    (∀ (c : FuseClient) (id : Nat) (buf : List Nat) (bufLen : Nat),
      hmLookup c.open_files id = some buf → buf.length ≤ bufLen →
      ∃ c1, c.read s path id bufLen = .ok buf c1 ∧
        ∀ bufLen2, ∃ c2, c1.read s path id bufLen2 = .ok [] c2) ∧
    (∀ (c : FuseClient) (id : Nat),
      hmLookup (c.release id).open_files id = none ∧
      ∀ k, k ≠ id →
        hmLookup (c.release id).open_files k = hmLookup c.open_files k) := by
  have hread : ∀ (c : FuseClient) (id : Nat) (buf : List Nat) (bufLen : Nat),
      hmLookup c.open_files id = some buf →
      c.read s path id bufLen =
        .ok (buf.take (min bufLen buf.length))
          { c with open_files :=
              hmInsert c.open_files id (buf.drop (min bufLen buf.length)) } := by
    intro c id buf bufLen hbuf
    unfold FuseClient.read
    rw [hs, hbuf]
  refine ⟨?_, ?_, ?_, ?_⟩
  · intro c
    refine ⟨{ latest_open_id := c.latest_open_id + 1,
              open_files := hmInsert c.open_files c.latest_open_id [] },
      ?_, rfl, hmLookup_hmInsert_same _ _ _, ?_⟩
    · unfold FuseClient.open
      rw [hs]
    · intro k hk
      exact hmLookup_hmInsert_other _ _ _ _ hk
  · intro c id buf bufLen hbuf
    exact ⟨_, hread c id buf bufLen hbuf, hmLookup_hmInsert_same _ _ _⟩
  · intro c id buf bufLen hbuf hlen
    have hmin : min bufLen buf.length = buf.length := Nat.min_eq_right hlen
    refine ⟨{ c with open_files := hmInsert c.open_files id [] }, ?_, ?_⟩
    · rw [hread c id buf bufLen hbuf, hmin, List.take_length, List.drop_length]
    · intro bufLen2
      have hempty : hmLookup (hmInsert c.open_files id []) id = some [] :=
        hmLookup_hmInsert_same _ _ _
      refine ⟨{ c with
        open_files := hmInsert (hmInsert c.open_files id []) id [] }, ?_⟩
      have hr := hread { c with open_files := hmInsert c.open_files id [] }
        id [] bufLen2 hempty
      simpa using hr
  · intro c id
    exact ⟨hmLookup_hmRemove_same _ _,
      fun k hk => hmLookup_hmRemove_other _ _ _ hk⟩

/-- C10 witness: on the scenario socket path `/.api_handle`, opening the
fresh client yields handle 0 with an empty buffer, and a drained buffer
rereads as zero bytes. -/
theorem socket_reads_consume_witness :
    ∃ c1, exampleClient.open exampleSys [".api_handle"] =
        .ok (.socket exampleClient.latest_open_id, c1) ∧
      c1.latest_open_id = exampleClient.latest_open_id + 1 ∧
      hmLookup c1.open_files exampleClient.latest_open_id = some [] ∧
      (∀ k, k ≠ exampleClient.latest_open_id →
        hmLookup c1.open_files k = hmLookup exampleClient.open_files k) :=
  (socket_reads_consume exampleSys [".api_handle"] rfl).1 exampleClient

/-! ## C4: what `Unknown` paths actually return (not ENOENT) -/

/-- C4 counterexample: `/no_such_entry` resolves to `Unknown` in the
scenario state, yet `getattr` succeeds and reports a directory (because
`path_purpose_to_filetype` maps `Unknown` to `Filetype::Dir`) instead of
failing with `-ENOENT` (= `-2`), and `readdir`/`open` fail with the
generic `-1`, not `-ENOENT`. -/
theorem unknown_path_not_enoent :
    parse_path exampleSys ["no_such_entry"] = .ok .unknown ∧
    fuse_client_getattr exampleSys ["no_such_entry"] = .ok .dir ∧
    ¬fuse_client_getattr exampleSys ["no_such_entry"] = .error (-2) ∧
    fuse_client_readdir exampleSys ["no_such_entry"] = .error (-1) ∧
    fuse_client_open_code exampleSys exampleClient ["no_such_entry"] = -1 := by
  refine ⟨rfl, rfl, ?_, rfl, rfl⟩
  intro h
  exact nomatch h

/-- C4 amended: for every path resolving to `PathPurpose::Unknown`,
`getattr` succeeds and reports a directory (mode 0755), while `readdir`
and `open` fail with the generic error `-1`; no `ENOENT` is produced. -/
theorem unknown_path_reported_as_directory (s : Sys) (path : List String)
    (h : parse_path s path = .ok .unknown) :
    fuse_client_getattr s path = .ok .dir ∧
    fuse_client_readdir s path = .error (-1) ∧
    (∀ c, fuse_client_open_code s c path = -1) := by
  have hp : get_passthrough_path s path = .ok none := by
    unfold get_passthrough_path
    rw [h]
  refine ⟨?_, ?_, ?_⟩
  · unfold fuse_client_getattr
    rw [hp, h]
    rfl
  · unfold fuse_client_readdir client_readdir
    rw [h]
    rfl
  · intro c
    unfold fuse_client_open_code FuseClient.open
    rw [hp, h]

/-- C4 amended witness: the general statement instantiated at
`/no_such_entry`. -/
theorem unknown_path_reported_as_directory_witness :
    fuse_client_getattr exampleSys ["no_such_entry"] = .ok .dir ∧
    fuse_client_readdir exampleSys ["no_such_entry"] = .error (-1) ∧
    (∀ c, fuse_client_open_code exampleSys c ["no_such_entry"] = -1) :=
  unknown_path_reported_as_directory exampleSys ["no_such_entry"] rfl

/-! ## C9: the read handler panics on a short buffer and under the
filter-enumeration unwrap -/

/-- C9 counterexample: the adapter panics on user input beyond the
documented `get_sibling_id` case, in two ways.  (i) Reading the metadata
file `/items/1/id` (rendered content `"1\n"`, two bytes) into a zero-byte
buffer panics — the slice copy `buf[0..content.len()]` is out of range.
(ii) With a root filter whose conditions contain
`HasRelationshipWithVariableItem` (a state `Db::add_root_filter`
accepts), reading any child of that filter directory panics inside
`parse_path` on the condition renderer's `item_context.unwrap()`, for
every buffer size — here 100 bytes. -/
theorem read_short_buffer_panics :
    exampleClient.read exampleSys ["items", "1", "id"] 0 0 = .panicked ∧
    exampleClient.read varFilterSys ["ctx", "x"] 100 100 = .panicked :=
  ⟨rfl, rfl⟩

/-- C9 amended: with path components embedded as decoded (valid-UTF-8)
strings, `FuseClient::read` panics in exactly two situations — when path
resolution itself panics (the filter-enumeration `unwrap` on a
variable-item condition), and when the caller's buffer is shorter than
the content the path renders (the metadata slice copy); whenever
resolution does not panic and the buffer is adequate, `read` does not
panic. -/
theorem read_no_panic_with_adequate_buffer (c : FuseClient) (s : Sys)
    (path : List String) (id : Nat) (bufLen : Nat)
    (hres : ¬parse_path s path = .panicked)
    (h : renderedReadLen s path ≤ bufLen) :
    ¬c.read s path id bufLen = .panicked := by
  unfold FuseClient.read
  unfold renderedReadLen at h
  cases hp : parse_path s path with
  | panicked => exact absurd hp hres
  | error e => simp
  | ok purpose =>
    rw [hp] at h
    cases purpose <;> simp_all [copyToBuf]
    split <;> simp

/-- C9 amended witness: `/items/1/id` resolves without panicking and a
2-byte buffer is large enough for its content, so the read does not panic
there. -/
theorem read_no_panic_with_adequate_buffer_witness :
    ¬exampleClient.read exampleSys ["items", "1", "id"] 7 2 = .panicked :=
  read_no_panic_with_adequate_buffer exampleClient exampleSys
    ["items", "1", "id"] 7 2 (by decide) (by decide)

/-! ## C2: children of an item directory -/

/-- Membership in a `hsInsert` step. -/
theorem mem_hsInsert (acc : List LabelEntry) (t x : LabelEntry) :
    x ∈ hsInsert acc t ↔ x ∈ acc ∨ x = t := by
  unfold hsInsert
  split
  case isTrue hmem =>
    constructor
    · exact Or.inl
    · rintro (hx | rfl)
      · exact hx
      · exact hmem
  case isFalse hmem => simp

/-- `hsInsert` preserves distinctness. -/
theorem nodup_hsInsert (acc : List LabelEntry) (t : LabelEntry) (h : acc.Nodup) :
    (hsInsert acc t).Nodup := by
  unfold hsInsert
  split
  · exact h
  case isFalse hmem => simp [List.nodup_append, h, hmem]

/-- When every relationship row referenced by the item exists,
categorization succeeds. -/
theorem categorizeRelAux_ok (db : Db) (rels : List ItemRelationship)
    (h : ∀ ir ∈ rels, (db.get_relationship ir.id).isSome = true) :
    ∀ acc, ∃ L, categorizeRelAux db rels acc = .ok L := by
  induction rels with
  | nil => exact fun acc => ⟨acc, rfl⟩
  | cons ir rest ih =>
    intro acc
    have h1 := h ir (by simp)
    cases hr : db.get_relationship ir.id with
    | none => rw [hr] at h1; cases h1
    | some r =>
      unfold categorizeRelAux
      rw [hr]
      exact ih (fun x hx => h x (by simp [hx])) _

/-- The categorized labels are exactly the triples derived from the item's
relationship rows (plus whatever was already accumulated). -/
theorem mem_categorizeRelAux (db : Db) :
    ∀ (rels : List ItemRelationship) (acc L : List LabelEntry),
      categorizeRelAux db rels acc = .ok L →
      ∀ x, x ∈ L ↔ x ∈ acc ∨ ∃ ir ∈ rels, ∃ r,
        db.get_relationship ir.id = some r ∧
          x = (ir.id, ir.side, labelName ir.side r) := by
  intro rels
  induction rels with
  | nil =>
    intro acc L h x
    unfold categorizeRelAux at h
    cases h
    simp
  | cons ir rest ih =>
    intro acc L h x
    unfold categorizeRelAux at h
    cases hr : db.get_relationship ir.id with
    | none => rw [hr] at h; cases h
    | some r =>
      rw [hr] at h
      rw [ih _ L h x, mem_hsInsert]
      constructor
      · rintro ((hx | rfl) | ⟨ir2, hir2, r2, hr2, rfl⟩)
        · exact Or.inl hx
        · exact Or.inr ⟨ir, by simp, r, hr, rfl⟩
        · exact Or.inr ⟨ir2, by simp [hir2], r2, hr2, rfl⟩
      · rintro (hx | ⟨ir2, hir2, r2, hr2, rfl⟩)
        · exact Or.inl (Or.inl hx)
        · rcases List.mem_cons.mp hir2 with rfl | hmem
          · rw [hr] at hr2
            cases hr2
            exact Or.inl (Or.inr rfl)
          · exact Or.inr ⟨ir2, hmem, r2, hr2, rfl⟩

/-- The categorized labels are distinct triples (the `HashSet`). -/
theorem nodup_categorizeRelAux (db : Db) :
    ∀ (rels : List ItemRelationship) (acc L : List LabelEntry),
      acc.Nodup → categorizeRelAux db rels acc = .ok L → L.Nodup := by
  intro rels
  induction rels with
  | nil =>
    intro acc L ha h
    unfold categorizeRelAux at h
    cases h
    exact ha
  | cons ir rest ih =>
    intro acc L ha h
    unfold categorizeRelAux at h
    cases hr : db.get_relationship ir.id with
    | none => rw [hr] at h; cases h
    | some r =>
      rw [hr] at h
      exact ih _ L (nodup_hsInsert _ _ ha) h

/-- A duplicate-free list whose only match of `q` is `t` filters to `[t]`. -/
theorem filter_eq_singleton_of_nodup (L : List LabelEntry) (q : LabelEntry → Bool)
    (t : LabelEntry) (hnd : L.Nodup) (ht : t ∈ L) (hq : q t = true)
    (huniq : ∀ x ∈ L, q x = true → x = t) : L.filter q = [t] := by
  induction L with
  | nil => cases ht
  | cons a rest ih =>
    rcases List.mem_cons.mp ht with rfl | hmem
    · rw [List.filter_cons_of_pos hq]
      have hrest : rest.filter q = [] := by
        rw [List.filter_eq_nil_iff]
        intro x hx hqx
        exact (List.nodup_cons.mp hnd).1 ((huniq x (by simp [hx]) hqx) ▸ hx)
      rw [hrest]
    · have ha : ¬q a = true := by
        intro hqa
        exact (List.nodup_cons.mp hnd).1 ((huniq a (by simp) hqa) ▸ hmem)
      rw [List.filter_cons_of_neg ha]
      exact ih (List.nodup_cons.mp hnd).2 hmem
        (fun x hx hqx => huniq x (by simp [hx]) hqx)

/-- C2: for an item whose row, relationship rows and content directory all
exist, enumerating `Item(id)` yields the categorized label entries
followed by the `content` passthrough directory and the `id`/`name`
metadata files; among the entries there is exactly one label entry per
distinct `(relationship_id, side)` pair on the item, displayed as the
relationship row's `from_name` for the `Dest` side and `to_name` for the
`Source` side, and no label entry for any absent pair. -/
theorem item_dir_children (s : Sys) (id : Int) (item : DbItem)
    (hitem : s.db.get_item_by_id id = some item)
    (hrels : ∀ ir ∈ item.relationships, (s.db.get_relationship ir.id).isSome = true)
    (hdir : (s.db.item_path ++ [toString id]) ∈ s.host.dirs) :
    ∃ L entries, categorize_relationships item.relationships s.db = .ok L ∧
      entries =
        L.map (fun l => (PathPurpose.itemRelationships id l.1 l.2.1, l.2.2)) ++
          [(.passthroughPath (s.db.item_path ++ [toString id]), "content"),
           (.itemId id, "id"), (.itemName id, "name")] ∧
      list_dir_contents s (.item id) = .ok entries ∧
      (.passthroughPath (s.db.item_path ++ [toString id]), "content") ∈ entries ∧
      (PathPurpose.itemId id, "id") ∈ entries ∧
      (PathPurpose.itemName id, "name") ∈ entries ∧
      (∀ rid side r, (∃ ir ∈ item.relationships, ir.id = rid ∧ ir.side = side) →
        s.db.get_relationship rid = some r →
        entries.filter (fun e => e.1 = PathPurpose.itemRelationships id rid side) =
          [(PathPurpose.itemRelationships id rid side, labelName side r)]) ∧
      (∀ rid side, (¬∃ ir ∈ item.relationships, ir.id = rid ∧ ir.side = side) →
        entries.filter (fun e => e.1 = PathPurpose.itemRelationships id rid side) =
          []) := by
  obtain ⟨L, hcat⟩ := categorizeRelAux_ok s.db item.relationships hrels []
  have hmemL := mem_categorizeRelAux s.db item.relationships [] L hcat
  simp only [List.not_mem_nil, false_or] at hmemL
  have hndL := nodup_categorizeRelAux s.db item.relationships [] L List.nodup_nil hcat
  have hfold : Db.content_folder_for_id s id = .ok (s.db.item_path ++ [toString id]) := by
    unfold Db.content_folder_for_id
    dsimp only
    rw [if_pos hdir]
  refine ⟨L, _, hcat, rfl, ?_, by simp, by simp, by simp, ?_, ?_⟩
  · unfold list_dir_contents
    dsimp only
    rw [hitem]
    dsimp only
    rw [show categorize_relationships item.relationships s.db = Except.ok L from hcat]
    dsimp only
    rw [hfold]
  · intro rid side r hpair hr
    rw [List.filter_append, List.filter_map]
    have htail :
        List.filter (fun e => decide (e.1 = PathPurpose.itemRelationships id rid side))
          [(PathPurpose.passthroughPath (s.db.item_path ++ [toString id]), "content"),
           (.itemId id, "id"), (.itemName id, "name")] = [] := by
      simp
    rw [htail, List.append_nil]
    have hfil : L.filter
        ((fun e => decide (e.1 = PathPurpose.itemRelationships id rid side)) ∘
          (fun l => (PathPurpose.itemRelationships id l.1 l.2.1, l.2.2))) =
        [(rid, side, labelName side r)] := by
      apply filter_eq_singleton_of_nodup L _ _ hndL
      · obtain ⟨ir, hirm, hirid, hirside⟩ := hpair
        rw [hmemL]
        refine ⟨ir, hirm, r, ?_, ?_⟩
        · rw [hirid]; exact hr
        · rw [hirid, hirside]
      · simp
      · intro x hx hqx
        obtain ⟨ir2, hir2, r2, hr2, rfl⟩ := (hmemL x).mp hx
        simp only [Function.comp_apply, decide_eq_true_eq,
          PathPurpose.itemRelationships.injEq, true_and] at hqx
        obtain ⟨hid2, hside2⟩ := hqx
        rw [hid2] at hr2
        rw [hr] at hr2
        cases hr2
        rw [hid2, hside2]
    rw [hfil]
    rfl
  · intro rid side hpair
    rw [List.filter_append, List.filter_map]
    have htail :
        List.filter (fun e => decide (e.1 = PathPurpose.itemRelationships id rid side))
          [(PathPurpose.passthroughPath (s.db.item_path ++ [toString id]), "content"),
           (.itemId id, "id"), (.itemName id, "name")] = [] := by
      simp
    rw [htail, List.append_nil]
    have hfil : L.filter
        ((fun e => decide (e.1 = PathPurpose.itemRelationships id rid side)) ∘
          (fun l => (PathPurpose.itemRelationships id l.1 l.2.1, l.2.2))) = [] := by
      rw [List.filter_eq_nil_iff]
      intro x hx hqx
      obtain ⟨ir2, hir2, r2, hr2, rfl⟩ := (hmemL x).mp hx
      simp only [Function.comp_apply, decide_eq_true_eq,
        PathPurpose.itemRelationships.injEq, true_and] at hqx
      exact hpair ⟨ir2, hir2, hqx.1, hqx.2⟩
    rw [hfil]
    rfl

/-- C2 witness: item 1 of the scenario (one `(1, Source)` pair labelled
`children`) enumerates to exactly that label entry plus `content`, `id`
and `name`. -/
theorem item_dir_children_witness :
    ∃ L entries,
      categorize_relationships [⟨1, RelationshipSide.source, 2⟩] exampleSys.db =
        .ok L ∧
      entries =
        L.map (fun l => (PathPurpose.itemRelationships 1 l.1 l.2.1, l.2.2)) ++
          [(.passthroughPath (exampleSys.db.item_path ++ [toString (1 : Int)]),
            "content"),
           (.itemId 1, "id"), (.itemName 1, "name")] ∧
      list_dir_contents exampleSys (.item 1) = .ok entries ∧
      (.passthroughPath (exampleSys.db.item_path ++ [toString (1 : Int)]),
        "content") ∈ entries ∧
      (PathPurpose.itemId 1, "id") ∈ entries ∧
      (PathPurpose.itemName 1, "name") ∈ entries ∧
      (∀ rid side r,
        (∃ ir ∈ [(⟨1, RelationshipSide.source, 2⟩ : ItemRelationship)],
          ir.id = rid ∧ ir.side = side) →
        exampleSys.db.get_relationship rid = some r →
        entries.filter (fun e => e.1 = PathPurpose.itemRelationships 1 rid side) =
          [(PathPurpose.itemRelationships 1 rid side, labelName side r)]) ∧
      (∀ rid side,
        (¬∃ ir ∈ [(⟨1, RelationshipSide.source, 2⟩ : ItemRelationship)],
          ir.id = rid ∧ ir.side = side) →
        entries.filter (fun e => e.1 = PathPurpose.itemRelationships 1 rid side) =
          []) :=
  item_dir_children exampleSys 1
    { path := ["store", "items", "1"], id := 1,
      relationships := [⟨1, RelationshipSide.source, 2⟩], name := "alice" }
    rfl (by decide) (by decide)

end TodoFs
